import Mathlib

/-!
Verification of the SinricPro Pico SDK core against its specification.

The C sources are shallowly embedded: each C function becomes a Lean
definition of the same name, state mutation becomes explicit state passing,
`uint32_t` arithmetic is `Nat` reduced modulo `2 ^ 32` where the source can
wrap, and fallible C functions return `Option` or a `Bool` flag exactly as
the source does.
-/

set_option maxRecDepth 100000

namespace SinricPro

/-! ## Constants (from `include/sinricpro/sinricpro_config.h`) -/

def SINRICPRO_MESSAGE_QUEUE_SIZE : Nat := 8
def SINRICPRO_MAX_MESSAGE_SIZE : Nat := 2048
def SINRICPRO_MAX_DEVICES : Nat := 8
def SINRICPRO_EVENT_LIMIT_STATE_MS : Nat := 1000
def SINRICPRO_EVENT_LIMIT_SENSOR_MS : Nat := 60000

/-- Modulus of the C `uint32_t` type. -/
def UINT32_MOD : Nat := 2 ^ 32

/-! ## Event limiter (from `src/core/event_limiter.c`)

The C struct `sinricpro_event_limiter_t` holds four `uint32_t` fields.
`sinricpro_event_limiter_check` reads the monotonic clock internally; the
embedding passes the clock value `current_millis` explicitly. -/

structure EventLimiter where
  minimum_distance_ms : Nat
  next_event_time : Nat
  extra_distance_ms : Nat
  fail_counter : Nat
deriving DecidableEq, Repr

/-- `sinricpro_event_limiter_init`: zero everything but the configured
minimum distance. -/
def sinricpro_event_limiter_init (min_distance_ms : Nat) : EventLimiter :=
  { minimum_distance_ms := min_distance_ms
    next_event_time := 0
    extra_distance_ms := 0
    fail_counter := 0 }

/-- `sinricpro_event_limiter_check`.  Returns `true` when the event is
BLOCKED and `false` when it is ALLOWED, exactly as the C function does. -/
def sinricpro_event_limiter_check (limiter : EventLimiter) (current_millis : Nat) :
    Bool × EventLimiter :=
  let fail_threshold := limiter.minimum_distance_ms / 4
  if current_millis ≥ limiter.next_event_time then
    -- event is allowed; adjust the back-off first
    let limiter :=
      if limiter.fail_counter > fail_threshold then
        { limiter with
            extra_distance_ms :=
              (limiter.extra_distance_ms + limiter.minimum_distance_ms) % UINT32_MOD
            fail_counter := 0 }
      else
        { limiter with extra_distance_ms := 0 }
    let limiter :=
      { limiter with
          next_event_time :=
            (current_millis + limiter.minimum_distance_ms +
              limiter.extra_distance_ms) % UINT32_MOD }
    (false, limiter)
  else
    (true, { limiter with fail_counter := (limiter.fail_counter + 1) % UINT32_MOD })

/-- `sinricpro_event_limiter_reset`. -/
def sinricpro_event_limiter_reset (limiter : EventLimiter) : EventLimiter :=
  { limiter with next_event_time := 0, extra_distance_ms := 0, fail_counter := 0 }

/-- Run `sinricpro_event_limiter_check` at the given sequence of clock
values, collecting the returned flags (`true` = BLOCK, `false` = ALLOW). -/
def sinricpro_event_limiter_run (l : EventLimiter) : List Nat → List Bool
  | [] => []
  | t :: rest =>
    let r := sinricpro_event_limiter_check l t
    r.1 :: sinricpro_event_limiter_run r.2 rest

/-! ## Message queue (from `src/core/message_queue.c`)

A ring buffer of `SINRICPRO_MESSAGE_QUEUE_SIZE = 8` slots, each holding at
most `SINRICPRO_MAX_MESSAGE_SIZE - 1 = 2047` stored bytes.  The critical
section is concurrency control only and has no sequential meaning. -/

inductive Interface where
  | unknown
  | websocket
  | udp
deriving DecidableEq, Repr

structure MessageSlot where
  interface : Interface
  message : List Char
  length : Nat
  in_use : Bool
deriving DecidableEq, Repr

def emptySlot : MessageSlot :=
  { interface := .unknown, message := [], length := 0, in_use := false }

structure Queue where
  messages : List MessageSlot
  head : Nat
  tail : Nat
  count : Nat
deriving DecidableEq, Repr

/-- `sinricpro_queue_init`. -/
def sinricpro_queue_init : Queue :=
  { messages := List.replicate SINRICPRO_MESSAGE_QUEUE_SIZE emptySlot
    head := 0
    tail := 0
    count := 0 }

/-- `sinricpro_queue_is_empty`. -/
def sinricpro_queue_is_empty (q : Queue) : Bool := q.count == 0

/-- `sinricpro_queue_is_full`. -/
def sinricpro_queue_is_full (q : Queue) : Bool := q.count ≥ SINRICPRO_MESSAGE_QUEUE_SIZE

/-- `sinricpro_queue_count`. -/
def sinricpro_queue_count (q : Queue) : Nat := q.count

/-- `sinricpro_queue_push`.  Note that the C code *truncates* a message of
`length >= SINRICPRO_MAX_MESSAGE_SIZE` to `SINRICPRO_MAX_MESSAGE_SIZE - 1`
bytes before enqueueing it; it only refuses a `NULL`/empty message or a full
queue. -/
def sinricpro_queue_push (q : Queue) (intf : Interface) (message : List Char) :
    Bool × Queue :=
  if message.length = 0 then (false, q)
  else
    let message :=
      if message.length ≥ SINRICPRO_MAX_MESSAGE_SIZE then
        message.take (SINRICPRO_MAX_MESSAGE_SIZE - 1)
      else message
    if q.count ≥ SINRICPRO_MESSAGE_QUEUE_SIZE then (false, q)
    else
      let slot : MessageSlot :=
        { interface := intf, message := message, length := message.length, in_use := true }
      (true,
        { q with
            messages := q.messages.set q.head slot
            head := (q.head + 1) % SINRICPRO_MESSAGE_QUEUE_SIZE
            count := q.count + 1 })

/-- `sinricpro_queue_pop`.  `max_len` is the caller's buffer size; the copy
is truncated to `max_len - 1` bytes, while the reported length is the slot's
stored length, as in the source. -/
def sinricpro_queue_pop (q : Queue) (max_len : Nat) :
    Option (Interface × List Char × Nat) × Queue :=
  if max_len = 0 then (none, q)
  else if q.count = 0 then (none, q)
  else
    match q.messages[q.tail]? with
    | none => (none, q)
    | some slot =>
      if !slot.in_use then (none, q)
      else
        let copy_len := if slot.length ≥ max_len then max_len - 1 else slot.length
        let out := slot.message.take copy_len
        let slot' := { slot with in_use := false, length := 0 }
        (some (slot.interface, out, slot.length),
          { q with
              messages := q.messages.set q.tail slot'
              tail := (q.tail + 1) % SINRICPRO_MESSAGE_QUEUE_SIZE
              count := q.count - 1 })

/-- `sinricpro_queue_peek`: like `pop` but leaves the queue untouched. -/
def sinricpro_queue_peek (q : Queue) (max_len : Nat) :
    Option (Interface × List Char × Nat) :=
  if max_len = 0 then none
  else if q.count = 0 then none
  else
    match q.messages[q.tail]? with
    | none => none
    | some slot =>
      if !slot.in_use then none
      else
        let copy_len := if slot.length ≥ max_len then max_len - 1 else slot.length
        some (slot.interface, slot.message.take copy_len, slot.length)

/-- `sinricpro_queue_clear`: resets the indices and marks every slot unused
(the C loop clears only `in_use` and `length`). -/
def sinricpro_queue_clear (q : Queue) : Queue :=
  { messages := q.messages.map (fun s => { s with in_use := false, length := 0 })
    head := 0
    tail := 0
    count := 0 }

/-- The queue states reachable from `sinricpro_queue_init` by any sequence
of `push`, `pop` and `clear` (`peek` does not modify the state). -/
inductive QueueReachable : Queue → Prop where
  | init : QueueReachable sinricpro_queue_init
  | push (q : Queue) (intf : Interface) (msg : List Char) :
      QueueReachable q → QueueReachable (sinricpro_queue_push q intf msg).2
  | pop (q : Queue) (max_len : Nat) :
      QueueReachable q → QueueReachable (sinricpro_queue_pop q max_len).2
  | clear (q : Queue) :
      QueueReachable q → QueueReachable (sinricpro_queue_clear q)

/-- The queue obtained by `n` successful pushes of the one-byte message
`"a"` onto the fresh queue. -/
def pushRepeat : Nat → Queue
  | 0 => sinricpro_queue_init
  | n + 1 => (sinricpro_queue_push (pushRepeat n) .websocket ['a']).2

/-- The structural ring-buffer invariant maintained by the code. -/
def QueueInv (q : Queue) : Prop :=
  q.messages.length = SINRICPRO_MESSAGE_QUEUE_SIZE ∧
  q.head < SINRICPRO_MESSAGE_QUEUE_SIZE ∧
  q.tail < SINRICPRO_MESSAGE_QUEUE_SIZE ∧
  q.count ≤ SINRICPRO_MESSAGE_QUEUE_SIZE ∧
  (q.tail + q.count) % SINRICPRO_MESSAGE_QUEUE_SIZE = q.head

/-! ## Canonical payload extraction and signature (from `src/core/signature.c`)

Byte strings are modeled as `List Char`.  The HMAC-SHA256-then-Base64
primitive (`sinricpro_hmac_base64`) is mbedTLS code outside this
repository's core, so it enters the embedding as an explicit function
parameter `hmac : key → message → signature`. -/

/-- The literal marker `"payload":` searched by `sinricpro_extract_payload`. -/
def payloadKey : List Char := "\"payload\":".data

/-- The literal marker `,"signature"` that ends the payload slice. -/
def sigKey : List Char := ",\"signature\"".data

/-- Index of the first occurrence of `needle` in `hay` (C `strstr`). -/
def findSub (needle : List Char) : List Char → Option Nat
  | [] => if needle.isPrefixOf ([] : List Char) then some 0 else none
  | c :: rest =>
    if needle.isPrefixOf (c :: rest) then some 0
    else (findSub needle rest).map (· + 1)

/-- `sinricpro_extract_payload`: the slice strictly between the first
`"payload":` marker and the first `,"signature"` marker after it.  Fails
(C return value 0) when either marker is missing or the slice does not fit
the caller's buffer of `output_len` bytes (one byte is reserved for the
terminating NUL, so a slice of length `≥ output_len` fails). -/
def sinricpro_extract_payload (message : List Char) (output_len : Nat) :
    Option (List Char) :=
  if output_len = 0 then none
  else
    match findSub payloadKey message with
    | none => none
    | some b =>
      let rest := message.drop (b + payloadKey.length)
      match findSub sigKey rest with
      | none => none
      | some payload_len =>
        if payload_len ≥ output_len then none
        else some (rest.take payload_len)

/-- `sinricpro_calculate_signature`: rejects an empty payload, otherwise
returns the Base64 HMAC of the payload under `key`. -/
def sinricpro_calculate_signature (hmac : List Char → List Char → List Char)
    (key payload : List Char) : Option (List Char) :=
  if payload.length = 0 then none else some (hmac key payload)

/-- The comparison at the end of `sinricpro_verify_signature`: a length
check followed by a constant-time byte-wise XOR accumulation, which
succeeds exactly on equal strings. -/
def constantTimeEq (a b : List Char) : Bool :=
  a.length == b.length && (List.zip a b).all (fun p => p.1 == p.2)

/-- `sinricpro_verify_signature`: extract the payload slice into a
2048-byte stack buffer, recompute the signature, compare. -/
def sinricpro_verify_signature (hmac : List Char → List Char → List Char)
    (key message signature : List Char) : Bool :=
  match sinricpro_extract_payload message SINRICPRO_MAX_MESSAGE_SIZE with
  | none => false
  | some payload =>
    match sinricpro_calculate_signature hmac key payload with
    | none => false
    | some calculated => constantTimeEq signature calculated

/-- The fixed serialized `header` object of every outbound envelope
(`sinricpro_json_create_message` + `cJSON_PrintUnformatted`, key order =
insertion order). -/
def envelopeHeader : List Char :=
  "\x7b\"header\":\x7b\"payloadVersion\":2,\"signatureVersion\":1\x7d,".data

/-- The serialized tail of the envelope after the payload slice:
`,"signature":{"HMAC":"<sig>"}}`. -/
def envelopeTail (signature : List Char) : List Char :=
  sigKey ++ ":\x7b\"HMAC\":\"".data ++ signature ++ "\"\x7d\x7d".data

/-- The serialized outbound envelope with the given payload slice and
signature: `{"header":…},"payload":<P>,"signature":{"HMAC":"<sig>"}}`. -/
def envelopeOf (payload signature : List Char) : List Char :=
  envelopeHeader ++ payloadKey ++ payload ++ envelopeTail signature

/-- `send_message` (from `src/core/sinricpro.c`) at the byte level: the
payload slice `payload` is the unformatted serialization of the envelope's
`payload` member (a 0-length serialization or one overflowing the
2048-byte buffers fails), the signature is computed over the slice with
the app secret, and the signed serialized envelope is what gets pushed on
the tx queue. -/
def send_message (hmac : List Char → List Char → List Char)
    (app_secret payload : List Char) : Option (List Char) :=
  if payload.length = 0 then none
  else if payload.length ≥ SINRICPRO_MAX_MESSAGE_SIZE then none
  else
    match sinricpro_calculate_signature hmac app_secret payload with
    | none => none
    | some signature =>
      let message := envelopeOf payload signature
      if message.length ≥ SINRICPRO_MAX_MESSAGE_SIZE then none
      else some message

/-- `noStraddleB a needle`: no occurrence of `needle` starts inside `a` —
neither wholly within `a` nor straddling `a`'s right end, whatever bytes
follow `a`.  (Used to pin down where the marker scans of
`sinricpro_extract_payload` first succeed on a serialized envelope.) -/
def noStraddleB : List Char → List Char → Bool
  | [], _ => true
  | c :: t, needle =>
    !(needle.isPrefixOf (c :: t)) && !((c :: t).isPrefixOf needle) &&
      noStraddleB t needle

/-! ## JSON model (the cJSON fragment used by the core)

The core manipulates cJSON objects holding strings, integers, booleans and
nested objects.  `cJSON_GetObjectItem` returns the first member with the
given key (all keys used by the core are written in a single fixed case);
`cJSON_AddItemToObject` and the typed `Add*ToObject` wrappers append a
member at the end; in-place mutations of an existing member become
replacement of the first member with that key. -/

inductive Json where
  | jstr : String → Json
  | jint : Int → Json
  | jbool : Bool → Json
  | jobj : List (String × Json) → Json

/-- `cJSON_GetObjectItem`. -/
def cJSON_GetObjectItem (j : Json) (key : String) : Option Json :=
  match j with
  | .jobj fields => (fields.find? (fun p => p.1 == key)).map (fun p => p.2)
  | _ => none

/-- `cJSON_AddItemToObject` / `cJSON_AddStringToObject` /
`cJSON_AddNumberToObject` / `cJSON_AddBoolToObject`: append a member. -/
def addItemToObject (j : Json) (key : String) (v : Json) : Json :=
  match j with
  | .jobj fields => .jobj (fields ++ [(key, v)])
  | _ => j

/-- Replace the value of the first member with key `key` by applying `f`
(no change when the key is absent, mirroring the C `NULL` guards around
each in-place mutation). -/
def modifyField : List (String × Json) → String → (Json → Json) → List (String × Json)
  | [], _, _ => []
  | (k, v) :: rest, key, f =>
    if k == key then (k, f v) :: rest
    else (k, v) :: modifyField rest key f

def modifyObjectItem (j : Json) (key : String) (f : Json → Json) : Json :=
  match j with
  | .jobj fields => .jobj (modifyField fields key f)
  | _ => j

/-- `sinricpro_json_get_string`: the member's string value, `none` (the C
`NULL` default used at every call site relevant here) when the member is
missing or not a string. -/
def sinricpro_json_get_string (object : Json) (key : String) : Option String :=
  match cJSON_GetObjectItem object key with
  | some (.jstr s) => some s
  | _ => none

/-- `sinricpro_json_get_int` with its C `default_val` parameter. -/
def sinricpro_json_get_int (object : Json) (key : String) (default_val : Int) : Int :=
  match cJSON_GetObjectItem object key with
  | some (.jint n) => n
  | _ => default_val

/-- `sinricpro_json_get_value`: `message.payload.value`. -/
def sinricpro_json_get_value (message : Json) : Option Json :=
  match cJSON_GetObjectItem message "payload" with
  | some payload => cJSON_GetObjectItem payload "value"
  | none => none

/-- `sinricpro_json_get_action`: `message.payload.action`. -/
def sinricpro_json_get_action (message : Json) : Option String :=
  match cJSON_GetObjectItem message "payload" with
  | some payload => sinricpro_json_get_string payload "action"
  | none => none

/-- `sinricpro_json_get_device_id`: `message.payload.deviceId`. -/
def sinricpro_json_get_device_id (message : Json) : Option String :=
  match cJSON_GetObjectItem message "payload" with
  | some payload => sinricpro_json_get_string payload "deviceId"
  | none => none

/-- `sinricpro_json_get_type`: `message.payload.type`. -/
def sinricpro_json_get_type (message : Json) : Option String :=
  match cJSON_GetObjectItem message "payload" with
  | some payload => sinricpro_json_get_string payload "type"
  | none => none

/-- `sinricpro_json_get_reply_token`: `message.payload.replyToken`. -/
def sinricpro_json_get_reply_token (message : Json) : Option String :=
  match cJSON_GetObjectItem message "payload" with
  | some payload => sinricpro_json_get_string payload "replyToken"
  | none => none

def SINRICPRO_TYPE_REQUEST : String := "request"
def SINRICPRO_TYPE_RESPONSE : String := "response"

/-- `sinricpro_json_create_message`: fresh envelope with fixed header,
empty payload and placeholder signature (members in insertion order). -/
def sinricpro_json_create_message : Json :=
  .jobj [("header", .jobj [("payloadVersion", .jint 2), ("signatureVersion", .jint 1)]),
         ("payload", .jobj []),
         ("signature", .jobj [("HMAC", .jstr "")])]

/-- `sinricpro_json_create_response`, with the clock and the RNG passed in
explicitly (`timestamp` = `sinricpro_json_get_timestamp()`, `uuid` = the
generated message id). -/
def sinricpro_json_create_response (request : Json) (timestamp : Int)
    (uuid : String) (success : Bool) : Option Json :=
  match cJSON_GetObjectItem request "payload" with
  | none => none
  | some req_payload =>
    let action := (sinricpro_json_get_string req_payload "action").getD ""
    let client_id := (sinricpro_json_get_string req_payload "clientId").getD ""
    let device_id := (sinricpro_json_get_string req_payload "deviceId").getD ""
    let reply_token := (sinricpro_json_get_string req_payload "replyToken").getD ""
    some (modifyObjectItem sinricpro_json_create_message "payload" (fun _ =>
      .jobj [("action", .jstr action),
             ("clientId", .jstr client_id),
             ("createdAt", .jint timestamp),
             ("deviceId", .jstr device_id),
             ("message", .jstr uuid),
             ("replyToken", .jstr reply_token),
             ("success", .jbool success),
             ("type", .jstr SINRICPRO_TYPE_RESPONSE),
             ("value", .jobj [])]))

/-- `sinricpro_json_add_value` followed by adding one member to the
returned `value` object: appends `(key, v)` to `message.payload.value`,
creating the `value` object when absent; no-op when the message has no
`payload` (the C function then returns `NULL` and the caller skips the
add). -/
def addToResponseValue (message : Json) (key : String) (v : Json) : Json :=
  match cJSON_GetObjectItem message "payload" with
  | none => message
  | some payload =>
    match cJSON_GetObjectItem payload "value" with
    | some _ =>
      modifyObjectItem message "payload"
        (fun p => modifyObjectItem p "value" (fun value => addItemToObject value key v))
    | none =>
      modifyObjectItem message "payload"
        (fun p => addItemToObject p "value" (.jobj [(key, v)]))

/-- C `strcasecmp(a, b) == 0` (ASCII case-insensitive equality). -/
def strCaseEq (a b : String) : Bool := a.toLower == b.toLower

/-! ## Capabilities (from `src/capabilities/*.c`)

A C user callback receives the decoded value through a pointer it may also
overwrite; the embedding models a callback as a function from the input
value to `(returned bool, value written back through the pointer)`.  Each
handler additionally reports how many times it invoked a user callback. -/

structure PowerStateCap where
  callback : Option (Bool → Bool × Bool)
  current_state : Bool
  event_limiter : EventLimiter

/-- `sinricpro_power_state_init`. -/
def sinricpro_power_state_init : PowerStateCap :=
  { callback := none
    current_state := false
    event_limiter := sinricpro_event_limiter_init SINRICPRO_EVENT_LIMIT_STATE_MS }

/-- `sinricpro_power_state_handle_request` (`power_state.c:28`). -/
def sinricpro_power_state_handle_request (cap : PowerStateCap)
    (request response : Json) : Bool × PowerStateCap × Json × Nat :=
  match sinricpro_json_get_value request with
  | none => (false, cap, response, 0)
  | some value =>
    match sinricpro_json_get_string value "state" with
    | none => (false, cap, response, 0)
    | some state_str =>
      let new_state := strCaseEq state_str "On"
      let r :=
        match cap.callback with
        | some cb => (cb new_state, 1)
        | none => ((true, new_state), 0)
      let success := r.1.1
      let new_state := r.1.2
      let cap := if success then { cap with current_state := new_state } else cap
      let response := addToResponseValue response "state"
        (.jstr (if new_state then "On" else "Off"))
      (success, cap, response, r.2)

/-- `clamp_brightness` (`brightness.c:14`). -/
def clamp_brightness (value : Int) : Int :=
  if value < 0 then 0 else if value > 100 then 100 else value

structure BrightnessCap where
  brightness_callback : Option (Int → Bool × Int)
  adjust_brightness_callback : Option (Int → Bool × Int)
  current_brightness : Int
  event_limiter : EventLimiter

/-- `sinricpro_brightness_handle_set_request` (`brightness.c:43`): the
request value is clamped before the callback, the callback's
written-back value is clamped again. -/
def sinricpro_brightness_handle_set_request (cap : BrightnessCap)
    (request response : Json) : Bool × BrightnessCap × Json × Nat :=
  match sinricpro_json_get_value request with
  | none => (false, cap, response, 0)
  | some value =>
    let brightness := sinricpro_json_get_int value "brightness" (-1)
    if brightness < 0 then (false, cap, response, 0)
    else
      let brightness := clamp_brightness brightness
      let r :=
        match cap.brightness_callback with
        | some cb =>
          let c := cb brightness
          ((c.1, clamp_brightness c.2), 1)
        | none => ((true, brightness), 0)
      let success := r.1.1
      let brightness := r.1.2
      let cap := if success then { cap with current_brightness := brightness } else cap
      let response := addToResponseValue response "brightness" (.jint brightness)
      (success, cap, response, r.2)

structure PowerLevelCap where
  callback : Option (Int → Bool × Int)
  adjust_callback : Option (Int → Bool × Int)
  current_power_level : Int
  event_limiter : EventLimiter

/-- `sinricpro_power_level_handle_set_request` (`power_level.c:36`): note
the absence of any clamping. -/
def sinricpro_power_level_handle_set_request (cap : PowerLevelCap)
    (request response : Json) : Bool × PowerLevelCap × Json × Nat :=
  match sinricpro_json_get_value request with
  | none => (false, cap, response, 0)
  | some value =>
    let level := sinricpro_json_get_int value "powerLevel" (-1)
    if level < 0 then (false, cap, response, 0)
    else
      let r :=
        match cap.callback with
        | some cb => (cb level, 1)
        | none => ((true, level), 0)
      let success := r.1.1
      let level := r.1.2
      let cap := if success then { cap with current_power_level := level } else cap
      let response := addToResponseValue response "powerLevel" (.jint level)
      (success, cap, response, r.2)

structure RangeCap where
  set_callback : Option (Int → Bool × Int)
  adjust_callback : Option (Int → Bool × Int)
  range_value : Int
  event_limiter : EventLimiter

/-- `sinricpro_range_controller_handle_set_request`
(`range_controller.c:38`): the value written back by the callback is
clamped to 0–100. -/
def sinricpro_range_controller_handle_set_request (cap : RangeCap)
    (request response : Json) : Bool × RangeCap × Json × Nat :=
  match sinricpro_json_get_value request with
  | none => (false, cap, response, 0)
  | some value =>
    let range_value := sinricpro_json_get_int value "rangeValue" (-1)
    if range_value < 0 then (false, cap, response, 0)
    else
      let r :=
        match cap.set_callback with
        | some cb => (cb range_value, 1)
        | none => ((true, range_value), 0)
      let success := r.1.1
      let range_value := r.1.2
      let range_value :=
        if range_value < 0 then 0 else if range_value > 100 then 100 else range_value
      let cap := if success then { cap with range_value := range_value } else cap
      let response := addToResponseValue response "rangeValue" (.jint range_value)
      (success, cap, response, r.2)

structure ColorTempCap where
  callback : Option (Int → Bool × Int)
  increase_callback : Option (Int → Bool × Int)
  decrease_callback : Option (Int → Bool × Int)
  current_temp : Int
  event_limiter : EventLimiter

/-- `sinricpro_color_temp_handle_request` (`color_temperature.c:44`):
`success` starts `false` and is set only by a callback; no clamping
anywhere. -/
def sinricpro_color_temp_handle_request (cap : ColorTempCap) (action : String)
    (request response : Json) : Bool × ColorTempCap × Json × Nat :=
  match sinricpro_json_get_value request with
  | none => (false, cap, response, 0)
  | some value =>
    if action == "setColorTemperature" then
      let color_temp := sinricpro_json_get_int value "colorTemperature" (-1)
      if color_temp < 0 then (false, cap, response, 0)
      else
        let r :=
          match cap.callback with
          | some cb => (cb color_temp, 1)
          | none => ((false, color_temp), 0)
        let success := r.1.1
        let color_temp := r.1.2
        let cap := if success then { cap with current_temp := color_temp } else cap
        let response := addToResponseValue response "colorTemperature" (.jint color_temp)
        (success, cap, response, r.2)
    else if action == "increaseColorTemperature" then
      let r :=
        match cap.increase_callback with
        | some cb => (cb 1, 1)
        | none => ((false, 1), 0)
      let success := r.1.1
      let delta := r.1.2
      let cap := if success then { cap with current_temp := delta } else cap
      let response := addToResponseValue response "colorTemperature" (.jint delta)
      (success, cap, response, r.2)
    else if action == "decreaseColorTemperature" then
      let r :=
        match cap.decrease_callback with
        | some cb => (cb (-1), 1)
        | none => ((false, -1), 0)
      let success := r.1.1
      let delta := r.1.2
      let cap := if success then { cap with current_temp := delta } else cap
      let response := addToResponseValue response "colorTemperature" (.jint delta)
      (success, cap, response, r.2)
    else (false, cap, response, 0)

structure LockCap where
  callback : Option (Bool → Bool × Bool)
  locked : Bool
  event_limiter : EventLimiter

/-- `sinricpro_lock_controller_init`. -/
def sinricpro_lock_controller_init : LockCap :=
  { callback := none
    locked := false
    event_limiter := sinricpro_event_limiter_init SINRICPRO_EVENT_LIMIT_STATE_MS }

/-- `sinricpro_lock_controller_handle_request` (`lock_controller.c:30`).
Unlike the other capabilities this function looks `value` up on the *top
level* of the request object (`cJSON_GetObjectItem(request, "value")`,
not `request.payload.value`), and writes the response `state` into a
*top-level* `value` member of the response envelope. -/
def sinricpro_lock_controller_handle_request (cap : LockCap)
    (request response : Json) : Bool × LockCap × Json × Nat :=
  match cap.callback with
  | none => (false, cap, response, 0)
  | some cb =>
    match cJSON_GetObjectItem request "value" with
    | none => (false, cap, response, 0)
    | some value =>
      match sinricpro_json_get_string value "state" with
      | none => (false, cap, response, 0)
      | some state_str =>
        let lock_requested := state_str == "lock"
        let r := cb lock_requested
        let success := r.1
        let lock_state := r.2
        let state_out :=
          if success then (if lock_state then "LOCKED" else "UNLOCKED") else "JAMMED"
        let response :=
          match cJSON_GetObjectItem response "value" with
          | some _ =>
            modifyObjectItem response "value"
              (fun v => addItemToObject v "state" (.jstr state_out))
          | none => addItemToObject response "value" (.jobj [("state", .jstr state_out)])
        let cap := if success then { cap with locked := lock_state } else cap
        (success, cap, response, 1)

/-! ## Devices, registry and dispatcher (from `src/devices/sinricpro_switch.c`,
`src/devices/sinricpro_lock.c` and `src/core/sinricpro.c`) -/

inductive DeviceKind where
  | switch (cap : PowerStateCap)
  | lock (cap : LockCap)

structure Device where
  device_id : String
  kind : DeviceKind

/-- The per-device `handle_request` function pointer:
`switch_handle_request` (`sinricpro_switch.c:69`) dispatches
`setPowerState`, `lock_handle_request` (`sinricpro_lock.c:52`) dispatches
`setLockState`; everything else returns `false`. -/
def device_handle_request (device : Device) (action : String)
    (request response : Json) : Bool × Device × Json × Nat :=
  match device.kind with
  | .switch cap =>
    if action == "setPowerState" then
      let r := sinricpro_power_state_handle_request cap request response
      (r.1, { device with kind := .switch r.2.1 }, r.2.2.1, r.2.2.2)
    else (false, device, response, 0)
  | .lock cap =>
    if action == "setLockState" then
      let r := sinricpro_lock_controller_handle_request cap request response
      (r.1, { device with kind := .lock r.2.1 }, r.2.2.1, r.2.2.2)
    else (false, device, response, 0)

/-- `sinricpro_add_device` (`sinricpro.c:210`): capacity check first, then
a duplicate-id scan, then append. -/
def sinricpro_add_device (reg : List Device) (device : Device) : Bool × List Device :=
  if reg.length ≥ SINRICPRO_MAX_DEVICES then (false, reg)
  else if reg.any (fun d => d.device_id == device.device_id) then (false, reg)
  else (true, reg ++ [device])

/-- `sinricpro_remove_device` (`sinricpro.c:229`): remove the first device
with the given id, shifting the rest left. -/
def sinricpro_remove_device : List Device → String → Bool × List Device
  | [], _ => (false, [])
  | d :: rest, device_id =>
    if d.device_id == device_id then (true, rest)
    else
      let r := sinricpro_remove_device rest device_id
      (r.1, d :: r.2)

/-- `sinricpro_find_device` (`sinricpro.c:246`). -/
def sinricpro_find_device (reg : List Device) (device_id : String) : Option Device :=
  reg.find? (fun d => d.device_id == device_id)

/-- Registry states reachable by any sequence of adds and removes. -/
inductive RegReachable : List Device → Prop where
  | init : RegReachable []
  | add (reg : List Device) (d : Device) :
      RegReachable reg → RegReachable (sinricpro_add_device reg d).2
  | remove (reg : List Device) (id : String) :
      RegReachable reg → RegReachable (sinricpro_remove_device reg id).2

/-- The registry after the in-place mutation of the found device (C
mutates the device struct through its registry pointer). -/
def replaceDevice : List Device → String → Device → List Device
  | [], _, _ => []
  | d :: rest, device_id, nd =>
    if d.device_id == device_id then nd :: rest
    else d :: replaceDevice rest device_id nd

/-- `process_request` (`sinricpro.c:388`), reached for inbound messages
that already parsed as JSON, carried a valid signature and had
`payload.type = "request"`.  Returns the response envelope handed to
`send_message` (`none` when nothing is sent), the updated registry, and
the number of user-callback invocations. -/
def process_request (reg : List Device) (message : Json) (timestamp : Int)
    (uuid : String) : Option Json × List Device × Nat :=
  match sinricpro_json_get_device_id message, sinricpro_json_get_action message with
  | some device_id, some action =>
    match sinricpro_find_device reg device_id with
    | none => (none, reg, 0)
    | some device =>
      match sinricpro_json_create_response message timestamp uuid false with
      | none => (none, reg, 0)
      | some response =>
        let r := device_handle_request device action message response
        let success := r.1
        let response := modifyObjectItem r.2.2.1 "payload"
          (fun p => modifyObjectItem p "success" (fun _ => .jbool success))
        (some response, replaceDevice reg device_id r.2.1, r.2.2.2)
  | _, _ => (none, reg, 0)

/-- `switch_handle_request` consumes exactly `setPowerState` and
`lock_handle_request` exactly `setLockState`; this predicate mirrors that
dispatch structure. -/
def deviceConsumesAction (d : Device) (action : String) : Bool :=
  match d.kind with
  | .switch _ => action == "setPowerState"
  | .lock _ => action == "setLockState"

/-- Field of the `payload` member of an optional response envelope. -/
def respPayloadField (r : Option Json) (key : String) : Option Json :=
  r.bind (fun resp => (cJSON_GetObjectItem resp "payload").bind
    (fun q => cJSON_GetObjectItem q key))

/-- Field of `payload.value` of an optional response envelope. -/
def respPayloadValueField (r : Option Json) (key : String) : Option Json :=
  r.bind (fun resp => (cJSON_GetObjectItem resp "payload").bind
    (fun q => (cJSON_GetObjectItem q "value").bind
      (fun v => cJSON_GetObjectItem v key)))

/-! Concrete fixtures for the dispatcher scenarios. -/

def c8Cb : Bool → Bool × Bool := fun b => (true, b)

def c8Cap : PowerStateCap :=
  { callback := some c8Cb
    current_state := false
    event_limiter := sinricpro_event_limiter_init SINRICPRO_EVENT_LIMIT_STATE_MS }

def c8Dev : Device := ⟨"aaaaaaaaaaaaaaaaaaaaaaaa", .switch c8Cap⟩

def c8Value : Json := .jobj [("state", .jstr "On")]

def c8Payload : Json :=
  .jobj [("action", .jstr "setPowerState"), ("clientId", .jstr "c1"),
         ("createdAt", .jint 1700000000),
         ("deviceId", .jstr "aaaaaaaaaaaaaaaaaaaaaaaa"),
         ("replyToken", .jstr "rt-1"), ("type", .jstr "request"),
         ("value", c8Value)]

def c8Msg : Json :=
  .jobj [("header", .jobj [("payloadVersion", .jint 2), ("signatureVersion", .jint 1)]),
         ("payload", c8Payload),
         ("signature", .jobj [("HMAC", .jstr "sig")])]

def c9Payload : Json :=
  .jobj [("action", .jstr "setPowerState"),
         ("deviceId", .jstr "bbbbbbbbbbbbbbbbbbbbbbbb"),
         ("replyToken", .jstr "rt-9"), ("type", .jstr "request"),
         ("value", .jobj [("state", .jstr "On")])]

def c9Msg : Json :=
  .jobj [("header", .jobj [("payloadVersion", .jint 2), ("signatureVersion", .jint 1)]),
         ("payload", c9Payload),
         ("signature", .jobj [("HMAC", .jstr "sig")])]

/-- A registered lock device (which consumes only `setLockState`). -/
def c9Lock : Device :=
  ⟨"bbbbbbbbbbbbbbbbbbbbbbbb",
    .lock { callback := some (fun b => (true, b))
            locked := false
            event_limiter := sinricpro_event_limiter_init SINRICPRO_EVENT_LIMIT_STATE_MS }⟩

/-- A registered lock device whose user callback is installed and reports
failure (the jam scenario). -/
def c4Lock : Device :=
  ⟨"cccccccccccccccccccccccc",
    .lock { callback := some (fun b => (false, b))
            locked := false
            event_limiter := sinricpro_event_limiter_init SINRICPRO_EVENT_LIMIT_STATE_MS }⟩

def c4Msg : Json :=
  .jobj [("header", .jobj [("payloadVersion", .jint 2), ("signatureVersion", .jint 1)]),
         ("payload",
           .jobj [("action", .jstr "setLockState"), ("clientId", .jstr "c4"),
                  ("createdAt", .jint 1700000000),
                  ("deviceId", .jstr "cccccccccccccccccccccccc"),
                  ("replyToken", .jstr "rt-4"), ("type", .jstr "request"),
                  ("value", .jobj [("state", .jstr "lock")])]),
         ("signature", .jobj [("HMAC", .jstr "sig")])]

def c5PowerLevelCap : PowerLevelCap :=
  { callback := none
    adjust_callback := none
    current_power_level := 0
    event_limiter := sinricpro_event_limiter_init SINRICPRO_EVENT_LIMIT_STATE_MS }

def c5PLRequest : Json :=
  .jobj [("payload", .jobj [("value", .jobj [("powerLevel", .jint 150)])])]

/-- A color-temperature capability whose callback accepts the request and
leaves the value unchanged. -/
def c5CTCap : ColorTempCap :=
  { callback := some (fun t => (true, t))
    increase_callback := none
    decrease_callback := none
    current_temp := 2700
    event_limiter := sinricpro_event_limiter_init SINRICPRO_EVENT_LIMIT_STATE_MS }

def c5CTRequest : Json :=
  .jobj [("payload", .jobj [("value", .jobj [("colorTemperature", .jint 10000)])])]

/-- A bare response envelope with an empty `payload.value`, as every
response passed to a capability handler has. -/
def c5Resp : Json := .jobj [("payload", .jobj [("value", .jobj [])])]

theorem queueInv_init : QueueInv sinricpro_queue_init := by
  refine ⟨?_, ?_, ?_, ?_, ?_⟩ <;> simp [sinricpro_queue_init, QueueInv,
    SINRICPRO_MESSAGE_QUEUE_SIZE]

theorem queueInv_push (q : Queue) (intf : Interface) (msg : List Char)
    (h : QueueInv q) : QueueInv (sinricpro_queue_push q intf msg).2 := by
  obtain ⟨hlen, hh, ht, hc, hmod⟩ := h
  by_cases h0 : msg.length = 0
  · simpa [sinricpro_queue_push, h0] using ⟨hlen, hh, ht, hc, hmod⟩
  · by_cases hfull : q.count ≥ SINRICPRO_MESSAGE_QUEUE_SIZE
    · simpa [sinricpro_queue_push, h0, hfull] using ⟨hlen, hh, ht, hc, hmod⟩
    · refine ⟨?_, ?_, ?_, ?_, ?_⟩ <;>
        simp only [sinricpro_queue_push, h0, hfull, if_false, if_neg,
          List.length_set, not_false_iff] <;>
        simp only [SINRICPRO_MESSAGE_QUEUE_SIZE] at * <;>
        omega

theorem queueInv_pop (q : Queue) (max_len : Nat)
    (h : QueueInv q) : QueueInv (sinricpro_queue_pop q max_len).2 := by
  obtain ⟨hlen, hh, ht, hc, hmod⟩ := h
  by_cases hml : max_len = 0
  · simpa [sinricpro_queue_pop, hml] using ⟨hlen, hh, ht, hc, hmod⟩
  · by_cases hcnt : q.count = 0
    · simpa [sinricpro_queue_pop, hml, hcnt] using ⟨hlen, hh, ht, hc, hmod⟩
    · match hslot : q.messages[q.tail]? with
      | none =>
        simpa [sinricpro_queue_pop, hml, hcnt, hslot] using ⟨hlen, hh, ht, hc, hmod⟩
      | some slot =>
        by_cases hin : slot.in_use
        · refine ⟨?_, ?_, ?_, ?_, ?_⟩ <;>
            simp only [sinricpro_queue_pop, hml, hcnt, hslot, hin, if_neg,
              not_false_iff, Bool.not_true, Bool.false_eq_true, if_false,
              List.length_set] <;>
            simp only [SINRICPRO_MESSAGE_QUEUE_SIZE] at * <;>
            omega
        · simp only [Bool.not_eq_true] at hin
          simpa [sinricpro_queue_pop, hml, hcnt, hslot, hin]
            using ⟨hlen, hh, ht, hc, hmod⟩

theorem queueInv_clear (q : Queue) (h : QueueInv q) :
    QueueInv (sinricpro_queue_clear q) := by
  obtain ⟨hlen, _, _, _, _⟩ := h
  refine ⟨?_, ?_, ?_, ?_, ?_⟩ <;>
    simp [sinricpro_queue_clear, hlen, SINRICPRO_MESSAGE_QUEUE_SIZE]

theorem queueInv_of_reachable (q : Queue) (h : QueueReachable q) : QueueInv q := by
  induction h with
  | init => exact queueInv_init
  | push q intf msg _ ih => exact queueInv_push q intf msg ih
  | pop q max_len _ ih => exact queueInv_pop q max_len ih
  | clear q _ ih => exact queueInv_clear q ih

/-- C1 counterexample: with `min_distance_ms = 1000`, the checks at times
0, 999, 1001, 2001 ms do **not** return ALLOW, BLOCK, BLOCK, ALLOW
(= `[false, true, true, false]`): a BLOCK never advances `next_event_time`,
so the third call is allowed. -/
theorem C1_event_limiter_claimed_trace_false :
    ¬ (sinricpro_event_limiter_run (sinricpro_event_limiter_init 1000)
        [0, 999, 1001, 2001] = [false, true, true, false]) := by
  decide

/-- C1 (amended): with `min_distance_ms = 1000` and no prior back-off, the
checks at 0, +999 ms, +1001 ms and +2001 ms return ALLOW, BLOCK, ALLOW,
ALLOW: only an ALLOW advances `next_event_time` (to 1000 and then to 2001),
a BLOCK merely increments `fail_counter`. -/
theorem C1_event_limiter_trace :
    sinricpro_event_limiter_run (sinricpro_event_limiter_init 1000)
        [0, 999, 1001, 2001] = [false, true, false, false] := by
  decide

theorem pushRepeat_reachable (n : Nat) : QueueReachable (pushRepeat n) := by
  induction n with
  | zero => exact QueueReachable.init
  | succ n ih => exact QueueReachable.push (pushRepeat n) .websocket ['a'] ih

/-- C2 counterexample: after 8 pushes the queue is full with
`count = 8` but `head = tail = 0`, so `(head − tail) mod 8 = 0 ≠ count`;
the literal invariant `count = (head − tail) mod 8` fails in a reachable
state. -/
theorem C2_full_queue_breaks_literal_invariant :
    QueueReachable (pushRepeat 8) ∧ (pushRepeat 8).count = 8 ∧
    ¬ (((pushRepeat 8).count : ℤ) =
        (((pushRepeat 8).head : ℤ) - ((pushRepeat 8).tail : ℤ)) % 8) :=
  ⟨pushRepeat_reachable 8, by decide, by decide⟩

/-- C2 (amended): in every reachable queue state, `count ≡ head − tail
(mod 8)` and `count ≤ 8`; the queue is empty iff `count = 0` and full iff
`count = 8`.  (The literal equation `count = (head − tail) mod 8` holds
except in the full state, where both sides differ by the capacity.) -/
theorem C2_queue_invariant (q : Queue) (h : QueueReachable q) :
    ((q.count : ℤ) % 8 = ((q.head : ℤ) - (q.tail : ℤ)) % 8) ∧
    q.count ≤ 8 ∧
    (sinricpro_queue_is_empty q = true ↔ q.count = 0) ∧
    (sinricpro_queue_is_full q = true ↔ q.count = 8) := by
  obtain ⟨hlen, hh, ht, hc, hmod⟩ := queueInv_of_reachable q h
  simp only [SINRICPRO_MESSAGE_QUEUE_SIZE] at hh ht hc hmod
  refine ⟨?_, ?_, ?_, ?_⟩
  · omega
  · omega
  · simp [sinricpro_queue_is_empty]
  · simp only [sinricpro_queue_is_full, SINRICPRO_MESSAGE_QUEUE_SIZE,
      ge_iff_le, decide_eq_true_eq]
    omega

/-- Witness for C2 at the freshly initialized queue. -/
theorem C2_queue_invariant_witness :
    (((sinricpro_queue_init).count : ℤ) % 8 =
      (((sinricpro_queue_init).head : ℤ) - ((sinricpro_queue_init).tail : ℤ)) % 8) ∧
    (sinricpro_queue_init).count ≤ 8 ∧
    (sinricpro_queue_is_empty sinricpro_queue_init = true ↔
      (sinricpro_queue_init).count = 0) ∧
    (sinricpro_queue_is_full sinricpro_queue_init = true ↔
      (sinricpro_queue_init).count = 8) :=
  C2_queue_invariant sinricpro_queue_init QueueReachable.init

/-- C3 counterexample: a 2048-byte message is **not** dropped:
`sinricpro_queue_push` returns `true`, the count grows to 1, and the stored
slot holds the 2047-byte truncated prefix. -/
theorem C3_oversize_push_truncates_counterexample :
    (sinricpro_queue_push sinricpro_queue_init .websocket
        (List.replicate 2048 'a')).1 = true ∧
    (sinricpro_queue_push sinricpro_queue_init .websocket
        (List.replicate 2048 'a')).2.count = 1 ∧
    ((sinricpro_queue_push sinricpro_queue_init .websocket
        (List.replicate 2048 'a')).2.messages[0]?.map
          (fun s => s.length)) = some 2047 := by
  refine ⟨?_, ?_, ?_⟩ <;>
    simp [sinricpro_queue_push, sinricpro_queue_init, SINRICPRO_MAX_MESSAGE_SIZE,
      SINRICPRO_MESSAGE_QUEUE_SIZE, List.take_replicate,
      List.getElem?_set_eq_of_lt]

/-- C3 (amended): a push whose message length reaches the 2048-byte cap
does not drop the message; when the queue is not full it truncates the
message to 2047 bytes, enqueues that prefix, returns `true`, and advances
`head` and `count` as an ordinary push. -/
theorem C3_push_oversize_behaviour (q : Queue) (intf : Interface) (msg : List Char)
    (hlen : msg.length ≥ SINRICPRO_MAX_MESSAGE_SIZE)
    (hnotfull : q.count < SINRICPRO_MESSAGE_QUEUE_SIZE) :
    sinricpro_queue_push q intf msg =
      (true,
        { q with
            messages := q.messages.set q.head
              { interface := intf
                message := msg.take (SINRICPRO_MAX_MESSAGE_SIZE - 1)
                length := SINRICPRO_MAX_MESSAGE_SIZE - 1
                in_use := true }
            head := (q.head + 1) % SINRICPRO_MESSAGE_QUEUE_SIZE
            count := q.count + 1 }) := by
  have hM : SINRICPRO_MAX_MESSAGE_SIZE = 2048 := rfl
  have h0 : ¬ (msg.length = 0) := by omega
  have hfull : ¬ (q.count ≥ SINRICPRO_MESSAGE_QUEUE_SIZE) := by omega
  have htake : (msg.take (SINRICPRO_MAX_MESSAGE_SIZE - 1)).length =
      SINRICPRO_MAX_MESSAGE_SIZE - 1 := by
    simp only [List.length_take]
    omega
  simp only [sinricpro_queue_push, if_neg h0, if_pos hlen, if_neg hfull, htake]

/-- Witness for C3 (amended) at a concrete 2048-byte message on the fresh
queue. -/
theorem C3_push_oversize_behaviour_witness :
    (List.replicate 2048 'a').length ≥ SINRICPRO_MAX_MESSAGE_SIZE ∧
    (sinricpro_queue_init).count < SINRICPRO_MESSAGE_QUEUE_SIZE ∧
    sinricpro_queue_push sinricpro_queue_init .websocket (List.replicate 2048 'a') =
      (true,
        { sinricpro_queue_init with
            messages := (sinricpro_queue_init).messages.set (sinricpro_queue_init).head
              { interface := .websocket
                message := (List.replicate 2048 'a').take (SINRICPRO_MAX_MESSAGE_SIZE - 1)
                length := SINRICPRO_MAX_MESSAGE_SIZE - 1
                in_use := true }
            head := ((sinricpro_queue_init).head + 1) % SINRICPRO_MESSAGE_QUEUE_SIZE
            count := (sinricpro_queue_init).count + 1 }) :=
  ⟨by simp [SINRICPRO_MAX_MESSAGE_SIZE],
    by simp [sinricpro_queue_init, SINRICPRO_MESSAGE_QUEUE_SIZE],
    C3_push_oversize_behaviour sinricpro_queue_init .websocket
      (List.replicate 2048 'a') (by simp [SINRICPRO_MAX_MESSAGE_SIZE])
      (by simp [sinricpro_queue_init, SINRICPRO_MESSAGE_QUEUE_SIZE])⟩

/-! ## C10: registry invariants -/

theorem remove_device_sublist (reg : List Device) (id : String) :
    List.Sublist (sinricpro_remove_device reg id).2 reg := by
  induction reg with
  | nil => simp [sinricpro_remove_device]
  | cons d rest ih =>
    unfold sinricpro_remove_device
    by_cases h : d.device_id == id
    · simp only [h, if_pos]
      exact (List.sublist_cons_self d rest)
    · simp only [h, if_neg, Bool.false_eq_true, not_false_iff]
      exact List.Sublist.cons₂ d ih

/-- The registry invariant: distinct ids, at most 8 devices. -/
def RegInv (reg : List Device) : Prop :=
  (reg.map Device.device_id).Nodup ∧ reg.length ≤ SINRICPRO_MAX_DEVICES

theorem regInv_add (reg : List Device) (d : Device) (h : RegInv reg) :
    RegInv (sinricpro_add_device reg d).2 := by
  obtain ⟨hnd, hlen⟩ := h
  unfold sinricpro_add_device
  by_cases hfull : reg.length ≥ SINRICPRO_MAX_DEVICES
  · simpa [hfull] using ⟨hnd, hlen⟩
  · by_cases hdup : reg.any (fun x => x.device_id == d.device_id)
    · simpa [hfull, hdup] using ⟨hnd, hlen⟩
    · simp only [hfull, hdup, if_neg, if_false, Bool.false_eq_true, not_false_iff]
      constructor
      · simp only [List.map_append, List.map_cons, List.map_nil]
        rw [List.nodup_append]
        refine ⟨hnd, List.nodup_singleton _, ?_⟩
        intro a ha hb
        simp only [List.mem_singleton] at hb
        subst hb
        simp only [List.mem_map] at ha
        obtain ⟨x, hx, hxid⟩ := ha
        simp only [List.any_eq_true, not_exists, not_and, Bool.not_eq_true] at hdup
        have := hdup x hx
        rw [hxid] at this
        simp at this
      · simp only [List.length_append, List.length_cons, List.length_nil]
        simp only [SINRICPRO_MAX_DEVICES] at *
        omega

theorem regInv_remove (reg : List Device) (id : String) (h : RegInv reg) :
    RegInv (sinricpro_remove_device reg id).2 := by
  obtain ⟨hnd, hlen⟩ := h
  have hsub := remove_device_sublist reg id
  exact ⟨hnd.sublist (hsub.map Device.device_id), le_trans hsub.length_le hlen⟩

theorem regInv_of_reachable (reg : List Device) (h : RegReachable reg) : RegInv reg := by
  induction h with
  | init => exact ⟨List.nodup_nil, by simp [SINRICPRO_MAX_DEVICES]⟩
  | add reg d _ ih => exact regInv_add reg d ih
  | remove reg id _ ih => exact regInv_remove reg id ih

theorem add_device_fails (reg : List Device) (d : Device)
    (h : (∃ x ∈ reg, x.device_id = d.device_id) ∨ reg.length ≥ SINRICPRO_MAX_DEVICES) :
    sinricpro_add_device reg d = (false, reg) := by
  unfold sinricpro_add_device
  by_cases hfull : reg.length ≥ SINRICPRO_MAX_DEVICES
  · simp [hfull]
  · have hdup : reg.any (fun x => x.device_id == d.device_id) = true := by
      rcases h with ⟨x, hx, hxid⟩ | hfull'
      · simp only [List.any_eq_true]
        exact ⟨x, hx, by simp [hxid]⟩
      · exact absurd hfull' hfull
    simp [hfull, hdup]

/-- C10: every registry state reachable by `sinricpro_add_device` /
`sinricpro_remove_device` has pairwise-distinct device ids and at most
`SINRICPRO_MAX_DEVICES = 8` entries; adding a duplicate id or adding to a
full registry fails and leaves the registry unchanged; removing preserves
the relative order of the remaining devices (the result is a sublist). -/
theorem C10_registry_invariants (reg : List Device) (h : RegReachable reg)
    (d : Device) (id : String) :
    (reg.map Device.device_id).Nodup ∧
    reg.length ≤ SINRICPRO_MAX_DEVICES ∧
    ((∃ x ∈ reg, x.device_id = d.device_id) ∨ reg.length ≥ SINRICPRO_MAX_DEVICES →
      sinricpro_add_device reg d = (false, reg)) ∧
    List.Sublist (sinricpro_remove_device reg id).2 reg := by
  obtain ⟨hnd, hlen⟩ := regInv_of_reachable reg h
  exact ⟨hnd, hlen, add_device_fails reg d, remove_device_sublist reg id⟩

/-- Witness for C10: a registry holding one switch device, reached by one
`add`. -/
theorem C10_registry_invariants_witness :
    (((sinricpro_add_device [] ⟨"aaaaaaaaaaaaaaaaaaaaaaaa",
        .switch sinricpro_power_state_init⟩).2.map Device.device_id).Nodup ∧
     (sinricpro_add_device [] ⟨"aaaaaaaaaaaaaaaaaaaaaaaa",
        .switch sinricpro_power_state_init⟩).2.length ≤ SINRICPRO_MAX_DEVICES ∧
     ((∃ x ∈ (sinricpro_add_device [] ⟨"aaaaaaaaaaaaaaaaaaaaaaaa",
          .switch sinricpro_power_state_init⟩).2,
        x.device_id = "aaaaaaaaaaaaaaaaaaaaaaaa") ∨
       (sinricpro_add_device [] ⟨"aaaaaaaaaaaaaaaaaaaaaaaa",
          .switch sinricpro_power_state_init⟩).2.length ≥ SINRICPRO_MAX_DEVICES →
      sinricpro_add_device
        (sinricpro_add_device [] ⟨"aaaaaaaaaaaaaaaaaaaaaaaa",
          .switch sinricpro_power_state_init⟩).2
        ⟨"aaaaaaaaaaaaaaaaaaaaaaaa", .switch sinricpro_power_state_init⟩ =
        (false, (sinricpro_add_device [] ⟨"aaaaaaaaaaaaaaaaaaaaaaaa",
          .switch sinricpro_power_state_init⟩).2)) ∧
     List.Sublist (sinricpro_remove_device
        (sinricpro_add_device [] ⟨"aaaaaaaaaaaaaaaaaaaaaaaa",
          .switch sinricpro_power_state_init⟩).2 "zz").2
        (sinricpro_add_device [] ⟨"aaaaaaaaaaaaaaaaaaaaaaaa",
          .switch sinricpro_power_state_init⟩).2) :=
  C10_registry_invariants _
    (RegReachable.add [] _ RegReachable.init)
    ⟨"aaaaaaaaaaaaaaaaaaaaaaaa", .switch sinricpro_power_state_init⟩ "zz"

/-! ## C6: signature verification fails closed -/

/-- C6: verification fails closed.  For every received message in which the
literal `"payload":` marker is absent, or the `,"signature"` marker is
absent after it, or the slice between the markers does not fit the
2048-byte extraction buffer, `sinricpro_verify_signature` returns `false`
for every key and signature (no truncate-then-verify), whatever the HMAC
primitive computes. -/
theorem C6_verify_fails_closed (hmac : List Char → List Char → List Char)
    (key msg sig : List Char)
    (h : findSub payloadKey msg = none ∨
      (∃ b, findSub payloadKey msg = some b ∧
        findSub sigKey (msg.drop (b + payloadKey.length)) = none) ∨
      (∃ b e, findSub payloadKey msg = some b ∧
        findSub sigKey (msg.drop (b + payloadKey.length)) = some e ∧
        SINRICPRO_MAX_MESSAGE_SIZE ≤ e)) :
    sinricpro_verify_signature hmac key msg sig = false := by
  unfold sinricpro_verify_signature sinricpro_extract_payload
  rcases h with h | ⟨b, hb, he⟩ | ⟨b, e, hb, he, hlen⟩
  · simp [h, SINRICPRO_MAX_MESSAGE_SIZE]
  · simp [hb, he, SINRICPRO_MAX_MESSAGE_SIZE]
  · simp only [SINRICPRO_MAX_MESSAGE_SIZE] at hlen ⊢
    simp [hb, he, hlen, Nat.not_lt.mpr hlen]

/-- Witness for C6: a message with no `"payload":` marker at all is
rejected. -/
theorem C6_verify_fails_closed_witness :
    findSub payloadKey "nonsense".data = none ∧
    sinricpro_verify_signature (fun _ m => m) "key".data "nonsense".data
      "sig".data = false :=
  ⟨by decide,
    C6_verify_fails_closed (fun _ m => m) "key".data "nonsense".data "sig".data
      (Or.inl (by decide))⟩

/-! ## C7: signature round-trip -/

theorem prefix_append_cases {needle l b : List Char} (h : needle <+: l ++ b) :
    needle <+: l ∨ l <+: needle := by
  by_cases hlen : needle.length ≤ l.length
  · exact Or.inl (List.prefix_of_prefix_length_le h (List.prefix_append l b) hlen)
  · exact Or.inr (List.prefix_of_prefix_length_le (List.prefix_append l b) h
      (le_of_not_le hlen))

theorem findSub_append (needle a b : List Char) (h : noStraddleB a needle = true) :
    findSub needle (a ++ b) = (findSub needle b).map (· + a.length) := by
  induction a with
  | nil =>
    simp only [List.nil_append, List.length_nil]
    cases findSub needle b <;> simp
  | cons c t ih =>
    simp only [noStraddleB, Bool.and_eq_true, Bool.not_eq_true'] at h
    obtain ⟨⟨h1, h2⟩, h3⟩ := h
    have hnp : ¬ (needle.isPrefixOf ((c :: t) ++ b) = true) := by
      intro hp
      rcases prefix_append_cases (List.isPrefixOf_iff_prefix.mp hp) with hc | hc
      · rw [← List.isPrefixOf_iff_prefix] at hc
        rw [h1] at hc
        exact Bool.false_ne_true hc
      · rw [← List.isPrefixOf_iff_prefix] at hc
        rw [h2] at hc
        exact Bool.false_ne_true hc
    rw [List.cons_append] at hnp ⊢
    simp only [findSub, if_neg hnp, ih h3, List.length_cons]
    cases findSub needle b <;> simp [Nat.add_assoc]

theorem findSub_self (needle rest : List Char) (h : needle ≠ []) :
    findSub needle (needle ++ rest) = some 0 := by
  cases needle with
  | nil => exact absurd rfl h
  | cons c t =>
    have hp : (c :: t).isPrefixOf ((c :: t) ++ rest) = true :=
      List.isPrefixOf_iff_prefix.mpr (List.prefix_append _ _)
    rw [List.cons_append] at hp ⊢
    simp only [findSub, if_pos hp]

theorem constantTimeEq_iff (a b : List Char) : constantTimeEq a b = true ↔ a = b := by
  induction a generalizing b with
  | nil => cases b <;> simp [constantTimeEq]
  | cons x xs ih =>
    cases b with
    | nil => simp [constantTimeEq]
    | cons y ys =>
      simp only [constantTimeEq, List.length_cons, List.zip_cons_cons, List.all_cons,
        Bool.and_eq_true, beq_iff_eq] at ih ⊢
      constructor
      · rintro ⟨hlen, hxy, hall⟩
        have hrest := (ih ys).mp ⟨by omega, hall⟩
        simp [hxy, hrest]
      · intro h
        injection h with h1 h2
        obtain ⟨hlen, hall⟩ := (ih ys).mpr h2
        exact ⟨by omega, h1, hall⟩

/-- Extraction recovers the canonical payload slice of a serialized
envelope, provided the slice fits the buffer and contains no (whole or
straddling) occurrence of the `,"signature"` marker. -/
theorem extract_envelopeOf (P sig : List Char)
    (hPlen : P.length < SINRICPRO_MAX_MESSAGE_SIZE)
    (hStr : noStraddleB P sigKey = true) :
    sinricpro_extract_payload (envelopeOf P sig) SINRICPRO_MAX_MESSAGE_SIZE = some P := by
  have hhead : noStraddleB envelopeHeader payloadKey = true := by decide
  have hk : payloadKey ≠ [] := by decide
  have hs : sigKey ≠ [] := by decide
  have h1 : findSub payloadKey (envelopeOf P sig) = some envelopeHeader.length := by
    unfold envelopeOf
    simp only [List.append_assoc]
    rw [findSub_append payloadKey envelopeHeader _ hhead,
      findSub_self payloadKey _ hk]
    simp
  have h2 : (envelopeOf P sig).drop (envelopeHeader.length + payloadKey.length) =
      P ++ envelopeTail sig := by
    unfold envelopeOf
    simp only [List.append_assoc]
    rw [← List.append_assoc, ← List.length_append]
    exact List.drop_left _ _
  have h3 : findSub sigKey (P ++ envelopeTail sig) = some P.length := by
    rw [findSub_append sigKey P _ hStr]
    unfold envelopeTail
    simp only [List.append_assoc]
    rw [findSub_self sigKey _ hs]
    simp
  have hnz : ¬ (SINRICPRO_MAX_MESSAGE_SIZE = 0) := by decide
  unfold sinricpro_extract_payload
  rw [if_neg hnz, h1]
  simp only [h2, h3, if_neg (Nat.not_le.mpr hPlen), List.take_left]

/-- C7: signature round-trip.  For every serialized outbound envelope `E`
produced by `send_message` over payload slice `P` (its `signature.HMAC`
computed by `sinricpro_calculate_signature(app_secret, P)`),
`sinricpro_verify_signature(app_secret, E, HMAC)` returns `true`; mutating
any single byte of `P`, or verifying under a different key, yields `false`
whenever the recomputed HMAC differs from the stored one (the
collision-resistance of HMAC-SHA256, which lives outside the core, enters
as the inequality hypotheses). -/
theorem C7_signature_roundtrip
    (hmac : List Char → List Char → List Char) (app_secret P : List Char)
    (hP : P ≠ [])
    (hPlen : P.length < SINRICPRO_MAX_MESSAGE_SIZE)
    (hStr : noStraddleB P sigKey = true)
    (hElen : (envelopeOf P (hmac app_secret P)).length < SINRICPRO_MAX_MESSAGE_SIZE) :
    send_message hmac app_secret P = some (envelopeOf P (hmac app_secret P)) ∧
    sinricpro_verify_signature hmac app_secret (envelopeOf P (hmac app_secret P))
      (hmac app_secret P) = true ∧
    (∀ i c, noStraddleB (P.set i c) sigKey = true →
      hmac app_secret (P.set i c) ≠ hmac app_secret P →
      sinricpro_verify_signature hmac app_secret
        (envelopeOf (P.set i c) (hmac app_secret P)) (hmac app_secret P) = false) ∧
    (∀ key2, hmac key2 P ≠ hmac app_secret P →
      sinricpro_verify_signature hmac key2 (envelopeOf P (hmac app_secret P))
        (hmac app_secret P) = false) := by
  have hP0 : ¬ (P.length = 0) := by
    intro h
    exact hP (List.length_eq_zero.mp h)
  refine ⟨?_, ?_, ?_, ?_⟩
  · unfold send_message sinricpro_calculate_signature
    rw [if_neg hP0, if_neg (Nat.not_le.mpr hPlen), if_neg hP0]
    simp only [if_neg (Nat.not_le.mpr hElen)]
  · unfold sinricpro_verify_signature
    simp only [extract_envelopeOf P _ hPlen hStr, sinricpro_calculate_signature,
      if_neg hP0]
    exact (constantTimeEq_iff _ _).mpr rfl
  · intro i c hStr' hne
    have hlen' : (P.set i c).length = P.length := List.length_set P i c
    have hP0' : ¬ ((P.set i c).length = 0) := by rw [hlen']; exact hP0
    unfold sinricpro_verify_signature
    simp only [extract_envelopeOf (P.set i c) _ (by rw [hlen']; exact hPlen) hStr',
      sinricpro_calculate_signature, if_neg hP0']
    rw [← Bool.not_eq_true, constantTimeEq_iff]
    exact fun h => hne h.symm
  · intro key2 hne
    unfold sinricpro_verify_signature
    simp only [extract_envelopeOf P _ hPlen hStr, sinricpro_calculate_signature,
      if_neg hP0]
    rw [← Bool.not_eq_true, constantTimeEq_iff]
    exact fun h => hne h.symm

/-- Concrete HMAC stand-in for the C7 witness (injective, so the
inequality hypotheses are dischargeable by computation). -/
def c7Hmac : List Char → List Char → List Char := fun key msg => key ++ msg

def c7Secret : List Char := "s".data

def c7Payload : List Char := "\x7b\"a\":1\x7d".data

/-- Witness for C7 at a concrete payload, key-prefix HMAC stand-in, and
the single-byte mutation flipping `1` to `2`. -/
theorem C7_signature_roundtrip_witness :
    send_message c7Hmac c7Secret c7Payload =
      some (envelopeOf c7Payload (c7Hmac c7Secret c7Payload)) ∧
    sinricpro_verify_signature c7Hmac c7Secret
      (envelopeOf c7Payload (c7Hmac c7Secret c7Payload))
      (c7Hmac c7Secret c7Payload) = true ∧
    sinricpro_verify_signature c7Hmac c7Secret
      (envelopeOf (c7Payload.set 5 '2') (c7Hmac c7Secret c7Payload))
      (c7Hmac c7Secret c7Payload) = false ∧
    sinricpro_verify_signature c7Hmac "t".data
      (envelopeOf c7Payload (c7Hmac c7Secret c7Payload))
      (c7Hmac c7Secret c7Payload) = false := by
  obtain ⟨h1, h2, h3, h4⟩ := C7_signature_roundtrip c7Hmac c7Secret c7Payload
    (by decide) (by decide) (by decide) (by decide)
  exact ⟨h1, h2, h3 5 '2' (by decide) (by decide), h4 "t".data (by decide)⟩

/-! ## C8: dispatching `setPowerState` -/

theorem getObj_cons_eq (k : String) (v : Json) (rest : List (String × Json)) :
    cJSON_GetObjectItem (.jobj ((k, v) :: rest)) k = some v := by
  simp [cJSON_GetObjectItem, List.find?]

theorem getObj_cons_ne (k k' : String) (v : Json) (rest : List (String × Json))
    (h : (k == k') = false) :
    cJSON_GetObjectItem (.jobj ((k, v) :: rest)) k' =
      cJSON_GetObjectItem (.jobj rest) k' := by
  simp [cJSON_GetObjectItem, List.find?, h]

/-- C8: an inbound `setPowerState` request that reaches `process_request`
(parsed, signature-verified, `type = "request"`) for a registered switch
device with an installed PowerState callback invokes that callback exactly
once, and the dispatched response satisfies `payload.replyToken` =
request's `replyToken`, `payload.type = "response"`, and
`payload.success` = the callback's boolean return. -/
theorem C8_dispatch_setPowerState
    (reg : List Device) (msg : Json) (ts : Int) (uuid : String)
    (p v : Json) (did rt s : String) (d : Device) (cap : PowerStateCap)
    (cb : Bool → Bool × Bool)
    (hpay : cJSON_GetObjectItem msg "payload" = some p)
    (hdid : sinricpro_json_get_string p "deviceId" = some did)
    (hact : sinricpro_json_get_string p "action" = some "setPowerState")
    (hrt : sinricpro_json_get_string p "replyToken" = some rt)
    (hval : cJSON_GetObjectItem p "value" = some v)
    (hstate : sinricpro_json_get_string v "state" = some s)
    (hfind : sinricpro_find_device reg did = some d)
    (hkind : d.kind = DeviceKind.switch cap)
    (hcb : cap.callback = some cb) :
    (process_request reg msg ts uuid).2.2 = 1 ∧
    (process_request reg msg ts uuid).1.isSome = true ∧
    respPayloadField (process_request reg msg ts uuid).1 "replyToken" =
      some (.jstr rt) ∧
    respPayloadField (process_request reg msg ts uuid).1 "type" =
      some (.jstr "response") ∧
    respPayloadField (process_request reg msg ts uuid).1 "success" =
      some (.jbool (cb (strCaseEq s "On")).1) := by
  refine ⟨?_, ?_, ?_, ?_, ?_⟩ <;>
    simp only [process_request, sinricpro_json_get_device_id,
      sinricpro_json_get_action, sinricpro_json_get_value,
      sinricpro_json_create_response, sinricpro_json_create_message,
      device_handle_request, sinricpro_power_state_handle_request,
      addToResponseValue, modifyObjectItem, modifyField, respPayloadField,
      SINRICPRO_TYPE_RESPONSE, hpay, hdid, hact, hrt, hval, hstate, hfind,
      hkind, hcb, Option.getD_some, getObj_cons_eq, getObj_cons_ne,
      Option.bind, Option.isSome] <;>
    simp [modifyField, addItemToObject, cJSON_GetObjectItem, List.find?]

/-- Witness for C8: switch `aaaa…a`, request `setPowerState`/`On`,
callback accepting the state. -/
theorem C8_dispatch_setPowerState_witness :
    (process_request [c8Dev] c8Msg 1700000000 "uuid-1").2.2 = 1 ∧
    (process_request [c8Dev] c8Msg 1700000000 "uuid-1").1.isSome = true ∧
    respPayloadField (process_request [c8Dev] c8Msg 1700000000 "uuid-1").1
      "replyToken" = some (.jstr "rt-1") ∧
    respPayloadField (process_request [c8Dev] c8Msg 1700000000 "uuid-1").1
      "type" = some (.jstr "response") ∧
    respPayloadField (process_request [c8Dev] c8Msg 1700000000 "uuid-1").1
      "success" = some (.jbool (c8Cb (strCaseEq "On" "On")).1) :=
  C8_dispatch_setPowerState [c8Dev] c8Msg 1700000000 "uuid-1" c8Payload c8Value
    "aaaaaaaaaaaaaaaaaaaaaaaa" "rt-1" "On" c8Dev c8Cap c8Cb
    rfl rfl rfl rfl rfl rfl rfl rfl rfl

/-! ## C9: unknown device / unknown action -/

/-- C9: an inbound request whose `deviceId` is not registered produces no
outbound message; an inbound request for a registered device whose action
the device does not consume produces a response with `success = false`
(and invokes no callback). -/
theorem C9_unknown_device_or_action :
    (∀ (reg : List Device) (msg : Json) (ts : Int) (uuid : String) (did : String),
      sinricpro_json_get_device_id msg = some did →
      sinricpro_find_device reg did = none →
      (process_request reg msg ts uuid).1 = none) ∧
    (∀ (reg : List Device) (msg : Json) (ts : Int) (uuid : String)
      (p : Json) (did action : String) (d : Device),
      cJSON_GetObjectItem msg "payload" = some p →
      sinricpro_json_get_string p "deviceId" = some did →
      sinricpro_json_get_string p "action" = some action →
      sinricpro_find_device reg did = some d →
      deviceConsumesAction d action = false →
      (process_request reg msg ts uuid).1.isSome = true ∧
      respPayloadField (process_request reg msg ts uuid).1 "success" =
        some (.jbool false) ∧
      (process_request reg msg ts uuid).2.2 = 0) := by
  constructor
  · intro reg msg ts uuid did hdid hfind
    cases hact : sinricpro_json_get_action msg with
    | none => simp [process_request, hdid, hact]
    | some a => simp [process_request, hdid, hact, hfind]
  · intro reg msg ts uuid p did action d hpay hdid hact hfind hna
    have hdid' : sinricpro_json_get_device_id msg = some did := by
      simp [sinricpro_json_get_device_id, hpay, hdid]
    have hact' : sinricpro_json_get_action msg = some action := by
      simp [sinricpro_json_get_action, hpay, hact]
    cases hk : d.kind with
    | «switch» cap =>
      have hne : (action == "setPowerState") = false := by
        have h := hna
        unfold deviceConsumesAction at h
        rw [hk] at h
        exact h
      refine ⟨?_, ?_, ?_⟩ <;>
        simp only [process_request, hdid', hact', hfind,
          sinricpro_json_create_response, sinricpro_json_create_message,
          device_handle_request, hk, hne, Bool.false_eq_true, if_false,
          modifyObjectItem, modifyField, respPayloadField, hpay,
          SINRICPRO_TYPE_RESPONSE, Option.getD_some, Option.bind,
          Option.isSome] <;>
        simp [modifyField, cJSON_GetObjectItem, List.find?]
    | lock cap =>
      have hne : (action == "setLockState") = false := by
        have h := hna
        unfold deviceConsumesAction at h
        rw [hk] at h
        exact h
      refine ⟨?_, ?_, ?_⟩ <;>
        simp only [process_request, hdid', hact', hfind,
          sinricpro_json_create_response, sinricpro_json_create_message,
          device_handle_request, hk, hne, Bool.false_eq_true, if_false,
          modifyObjectItem, modifyField, respPayloadField, hpay,
          SINRICPRO_TYPE_RESPONSE, Option.getD_some, Option.bind,
          Option.isSome] <;>
        simp [modifyField, cJSON_GetObjectItem, List.find?]

/-- Witness for C9: the empty registry drops a request for `bbbb…b`; a
registry holding only the lock `bbbb…b` answers a `setPowerState` request
for it with `success = false`. -/
theorem C9_unknown_device_or_action_witness :
    (process_request [] c9Msg 0 "uuid-9").1 = none ∧
    ((process_request [c9Lock] c9Msg 0 "uuid-9").1.isSome = true ∧
      respPayloadField (process_request [c9Lock] c9Msg 0 "uuid-9").1 "success" =
        some (.jbool false) ∧
      (process_request [c9Lock] c9Msg 0 "uuid-9").2.2 = 0) :=
  ⟨C9_unknown_device_or_action.1 [] c9Msg 0 "uuid-9" "bbbbbbbbbbbbbbbbbbbbbbbb"
      rfl rfl,
    C9_unknown_device_or_action.2 [c9Lock] c9Msg 0 "uuid-9" c9Payload
      "bbbbbbbbbbbbbbbbbbbbbbbb" "setPowerState" c9Lock rfl rfl rfl rfl rfl⟩

/-! ## C4: the lock-jam scenario -/

/-- C4: evaluating the pipeline at the jam scenario.  The inbound
`setLockState` request with `payload.value.state = "lock"` for the
registered lock `cccc…c`, whose callback is installed and returns failure,
yields a response with `payload.success = false` but **no**
`payload.value.state` member at all (in particular not `"JAMMED"`), and
the user callback is never invoked: `lock_controller.c` looks `value` up
on the envelope's top level, where only `header`/`payload`/`signature`
exist, so the handler returns `false` before reaching the callback. -/
theorem C4_lock_jam_scenario :
    (process_request [c4Lock] c4Msg 1700000000 "uuid-4").1.isSome = true ∧
    respPayloadField (process_request [c4Lock] c4Msg 1700000000 "uuid-4").1
      "success" = some (.jbool false) ∧
    respPayloadValueField (process_request [c4Lock] c4Msg 1700000000 "uuid-4").1
      "state" = none ∧
    (process_request [c4Lock] c4Msg 1700000000 "uuid-4").2.2 = 0 :=
  ⟨rfl, rfl, rfl, rfl⟩

/-! ## C5: clamping -/

/-- C5: evaluating the handlers at the failing inputs.  A `setPowerLevel`
request with `powerLevel = 150` and no callback is accepted (`true`) and
the response reports `powerLevel = 150`, outside `[0,100]`; a
`setColorTemperature` request with `colorTemperature = 10000` and a
callback that accepts and keeps the value is accepted and the response
reports `colorTemperature = 10000`, outside `[2200,7000]`.  Neither
handler clamps. -/
theorem C5_clamping_violations :
    (sinricpro_power_level_handle_set_request c5PowerLevelCap c5PLRequest
      c5Resp).1 = true ∧
    respPayloadValueField
      (some (sinricpro_power_level_handle_set_request c5PowerLevelCap c5PLRequest
        c5Resp).2.2.1) "powerLevel" = some (.jint 150) ∧
    (sinricpro_color_temp_handle_request c5CTCap "setColorTemperature"
      c5CTRequest c5Resp).1 = true ∧
    respPayloadValueField
      (some (sinricpro_color_temp_handle_request c5CTCap "setColorTemperature"
        c5CTRequest c5Resp).2.2.1) "colorTemperature" = some (.jint 10000) :=
  ⟨rfl, rfl, rfl, rfl⟩

end SinricPro
